import Mathlib

/-!
Verification development for the pyfastogt build orchestrator.

The Python sources (pyfastogt/build_utils.py, pyfastogt/system_info.py) are
shallowly embedded below.  Python process state (current working directory,
directory tree, file permission bits, environment block, the heap cells that
back the mutable command-line lists of the build-system catalog, the log of
subprocess invocations) is an explicit record `PState`; effectful Python code
becomes functions in the monad `M`, which threads the state and an exception,
with the state surviving a raised exception (as in Python).  Paths are
represented as lists of components of an absolute path.
-/

/-- Python exceptions that the embedded code can raise.  `buildError`
corresponds to build_utils.BuildError; the others model built-in exceptions
raised by the os / shutil primitives or by failed attribute lookups. -/
inductive PyExc where
  | osError : String → PyExc
  | fileExistsError : String → PyExc
  | fileNotFoundError : String → PyExc
  | attributeError : String → PyExc
  | notImplementedError : String → PyExc
  | typeError : String → PyExc
  | buildError : String → PyExc
deriving DecidableEq, Repr

/-- The message of an exception, modelling Python str(ex) as used by
build_command_cmake when it wraps a caught exception into BuildError. -/
def PyExc.toStr : PyExc → String
  | .osError m => m
  | .fileExistsError m => m
  | .fileNotFoundError m => m
  | .attributeError m => m
  | .notImplementedError m => m
  | .typeError m => m
  | .buildError m => m

/-- Process-wide state visible to the embedded Python code.

`cwd` is the current working directory as a list of path components;
`dirs` is the set of existing directories (absolute component lists);
`files` maps existing regular files to their executable bit;
`failing` is the set of paths on which mutating filesystem calls
(shutil.rmtree, os.mkdir) raise OSError, modelling e.g. permission errors;
`env` is os.environ as an association list;
`bsHeap` holds the mutable Python list objects backing the build-system
catalog command lines (index = object identity);
`calls` logs every subprocess.call argv, with the list contents at call time;
`pendingExits` are the exit statuses the next subprocess.call invocations
return (0 once exhausted);
`ldconfigAvailable` models shutil.which("ldconfig") being non-None;
`dist` is the host distribution name reported by platform.linux_distribution;
`home` is the home directory os.path.expanduser substitutes for a tilde. -/
structure PState where
  cwd : List String
  dirs : List (List String)
  files : List (List String × Bool)
  failing : List (List String)
  env : List (String × String)
  bsHeap : List (List String)
  calls : List (List String)
  pendingExits : List Int
  ldconfigAvailable : Bool
  dist : String
  home : String
deriving DecidableEq, Repr

/-- The effect monad of the embedding: state plus Python exceptions.  The
state component survives a raised exception, exactly as Python state does. -/
def M (α : Type) : Type := PState → Except PyExc α × PState

/-- Run an effectful computation on a state. -/
def M.run {α : Type} (x : M α) (s : PState) : Except PyExc α × PState := x s

/-- Return a value, leaving the state unchanged. -/
def M.pure {α : Type} (a : α) : M α := fun s => (Except.ok a, s)

/-- Sequencing: on an exception the rest of the computation is skipped but
the state reached so far is kept. -/
def M.bind {α β : Type} (x : M α) (f : α → M β) : M β := fun s =>
  match x s with
  | (Except.ok a, s2) => f a s2
  | (Except.error e, s2) => (Except.error e, s2)

/-- Raise an exception. -/
def M.throw {α : Type} (e : PyExc) : M α := fun s => (Except.error e, s)

/-- Python try/except catching every exception: the handler runs from the
state at the moment the exception was raised. -/
def M.tryCatchAll {α : Type} (x : M α) (handler : PyExc → M α) : M α := fun s =>
  match x s with
  | (Except.error e, s2) => handler e s2
  | r => r

/-- Read the whole state. -/
def M.get : M PState := fun s => (Except.ok s, s)

/-- Replace the whole state. -/
def M.set (s2 : PState) : M Unit := fun _ => (Except.ok (), s2)

/-- Lift a pure fallible computation into the monad. -/
def M.liftE {α : Type} (x : Except PyExc α) : M α := fun s => (x, s)

instance : Monad M where
  pure := M.pure
  bind := M.bind

instance {ε α : Type} [DecidableEq ε] [DecidableEq α] : DecidableEq (Except ε α) := fun a b =>
  match a, b with
  | Except.ok x, Except.ok y =>
    if h : x = y then isTrue (by rw [h]) else isFalse (by simp [h])
  | Except.ok _, Except.error _ => isFalse (by simp)
  | Except.error _, Except.ok _ => isFalse (by simp)
  | Except.error x, Except.error y =>
    if h : x = y then isTrue (by rw [h]) else isFalse (by simp [h])

@[simp]
theorem M.bind_def {α β : Type} (x : M α) (f : α → M β) : x >>= f = M.bind x f := rfl

@[simp]
theorem M.pure_def {α : Type} (a : α) : (Pure.pure a : M α) = M.pure a := rfl

/-- Lower-case one ASCII character, modelling Python str.lower per
character. -/
def char_lower (c : Char) : Char :=
  if c.isUpper then Char.ofNat (c.toNat + 32) else c

/-- Upper-case one ASCII character, modelling Python str.upper per
character. -/
def char_upper (c : Char) : Char :=
  if c.isLower then Char.ofNat (c.toNat - 32) else c

/-- Python str.lower for the ASCII strings the code handles. -/
def py_lower (s : String) : String := String.mk (s.data.map char_lower)

/-- Python str.upper for the ASCII strings the code handles. -/
def py_upper (s : String) : String := String.mk (s.data.map char_upper)

/-- Does the string start with the given piece? -/
def py_starts_with (s t : String) : Bool := List.isPrefixOf t.data s.data

/-- Does the string end with the given piece? -/
def py_ends_with (s t : String) : Bool := List.isSuffixOf t.data s.data

/-- Drop the first n characters. -/
def py_drop (s : String) (n : Nat) : String := String.mk (s.data.drop n)

/-- Drop the last n characters. -/
def py_drop_right (s : String) (n : Nat) : String :=
  String.mk (s.data.take (s.data.length - n))

/-- Split a character list at every slash. -/
def split_slash_aux : List Char → List Char → List (List Char)
  | [], acc => [acc.reverse]
  | c :: rest, acc =>
    if c = '/' then acc.reverse :: split_slash_aux rest [] else split_slash_aux rest (c :: acc)

/-- Split a string at every slash. -/
def split_slash (s : String) : List String :=
  (split_slash_aux s.data []).map String.mk

/-- Split a path string on the separator, dropping empty components. -/
def splitPath (p : String) : List String :=
  (split_slash p).filter (fun c => c ≠ "")

/-- Join path components onto a base directory, resolving the special
components dot and dot-dot the way the OS does. -/
def normJoin (base : List String) (comps : List String) : List String :=
  comps.foldl
    (fun acc c => if c = ".." then acc.dropLast else if c = "." then acc else acc ++ [c])
    base

/-- Resolve a path string against the current directory: absolute paths are
resolved from the root, relative ones from cwd. -/
def resolvePath (cwd : List String) (p : String) : List String :=
  if py_starts_with p "/" then normJoin [] (splitPath p) else normJoin cwd (splitPath p)

/-- Join path components with slashes. -/
def joinComponents : List String → String
  | [] => ""
  | [x] => x
  | x :: rest => x ++ "/" ++ joinComponents rest

/-- Render an absolute path (component list) back as a string, as os.getcwd
returns it. -/
def pathToString (l : List String) : String :=
  "/" ++ joinComponents l

/-- os.path.expanduser: replace a leading tilde with the home directory. -/
def expanduser (homeDir p : String) : String :=
  if py_starts_with p "~" then homeDir ++ py_drop p 1 else p

/-- os.path.expanduser reading the home directory from the process state. -/
def os_path_expanduser (p : String) : M String := fun s =>
  (Except.ok (expanduser s.home p), s)

/-- os.getcwd. -/
def os_getcwd : M String := fun s => (Except.ok (pathToString s.cwd), s)

/-- os.path.abspath: resolve a possibly relative path against cwd. -/
def os_path_abspath (p : String) : M String := fun s =>
  (Except.ok (pathToString (resolvePath s.cwd p)), s)

/-- os.path.exists restricted to directories (the only use sites test
directories). -/
def os_path_exists (p : String) : M Bool := fun s =>
  (Except.ok (decide (resolvePath s.cwd p ∈ s.dirs)), s)

/-- shutil.rmtree: remove a directory tree.  Raises OSError on a path from
the failing set (e.g. permissions), FileNotFoundError when absent. -/
def shutil_rmtree (p : String) : M Unit := fun s =>
  let r := resolvePath s.cwd p
  if r ∈ s.failing then
    (Except.error (PyExc.osError ("rmtree failed: " ++ p)), s)
  else if r ∈ s.dirs then
    (Except.ok (), { s with dirs := s.dirs.filter (fun d => !(List.isPrefixOf r d)) })
  else
    (Except.error (PyExc.fileNotFoundError p), s)

/-- os.mkdir: create one directory.  Raises OSError on a failing path,
FileExistsError when present, FileNotFoundError when the parent is absent
(the root, the empty component list, always exists). -/
def os_mkdir (p : String) : M Unit := fun s =>
  let r := resolvePath s.cwd p
  if r ∈ s.failing then
    (Except.error (PyExc.osError ("mkdir failed: " ++ p)), s)
  else if r ∈ s.dirs then
    (Except.error (PyExc.fileExistsError p), s)
  else if r.dropLast ∈ s.dirs ∨ r.dropLast = [] then
    (Except.ok (), { s with dirs := s.dirs ++ [r] })
  else
    (Except.error (PyExc.fileNotFoundError p), s)

/-- os.chdir: raises FileNotFoundError when the target is absent. -/
def os_chdir (p : String) : M Unit := fun s =>
  let r := resolvePath s.cwd p
  if r ∈ s.dirs then (Except.ok (), { s with cwd := r })
  else (Except.error (PyExc.fileNotFoundError p), s)

/-- os.stat on a file, returning its executable bit; raises
FileNotFoundError when the file is absent. -/
def os_stat (p : String) : M Bool := fun s =>
  match s.files.find? (fun f => f.1 == resolvePath s.cwd p) with
  | some f => (Except.ok f.2, s)
  | none => (Except.error (PyExc.fileNotFoundError p), s)

/-- os.chmod(p, st.st_mode | stat.S_IEXEC): set the executable bit. -/
def os_chmod_exec (p : String) : M Unit := fun s =>
  let r := resolvePath s.cwd p
  (Except.ok (),
   { s with files := s.files.map (fun f => if f.1 == r then (f.1, true) else f) })

/-- Update one key of an environment block, os.environ assignment style:
the stored value is exactly the given string, with no shell expansion. -/
def env_set (e : List (String × String)) (k v : String) : List (String × String) :=
  if e.any (fun kv => kv.1 == k) then
    e.map (fun kv => if kv.1 == k then (k, v) else kv)
  else
    e ++ [(k, v)]

/-- Look up a key of an environment block. -/
def env_lookup (e : List (String × String)) (k : String) : Option String :=
  (e.find? (fun kv => kv.1 == k)).map (fun kv => kv.2)

/-- os.environ[k] = v. -/
def os_environ_set (k v : String) : M Unit := fun s =>
  (Except.ok (), { s with env := env_set s.env k v })

/-- subprocess.call: logs the argv (list contents at call time) and returns
the next pending exit status, 0 when none is pending.  The return value is a
plain integer; a non-zero status raises nothing, exactly as in Python. -/
def subprocess_call (argv : List String) : M Int := fun s =>
  match s.pendingExits with
  | [] => (Except.ok 0, { s with calls := s.calls ++ [argv] })
  | e :: rest => (Except.ok e, { s with calls := s.calls ++ [argv], pendingExits := rest })

/-- hasattr(shutil, "which") and shutil.which("ldconfig"): availability of
the dynamic-linker cache refresh utility on the host. -/
def shutil_which_ldconfig : M Bool := fun s => (Except.ok s.ldconfigAvailable, s)

/-- Read the current contents of a heap-allocated Python list object. -/
def heap_read (r : Nat) : M (List String) := fun s =>
  (Except.ok (s.bsHeap.getD r []), s)

/-- list.append on a heap-allocated Python list object: mutates it in
place, visible through every alias. -/
def heap_append (r : Nat) (v : String) : M Unit := fun s =>
  (Except.ok (), { s with bsHeap := s.bsHeap.set r (s.bsHeap.getD r [] ++ [v]) })

/-!
Embedding of pyfastogt/system_info.py.
-/

/-- system_info.Architecture. -/
structure Architecture where
  name_ : String
  bit_ : Nat
  default_install_prefix_path_ : String
deriving DecidableEq, Repr

/-- Architecture.name. -/
def Architecture.name (a : Architecture) : String := a.name_

/-- Architecture.bit. -/
def Architecture.bit (a : Architecture) : Nat := a.bit_

/-- Architecture.default_install_prefix_path. -/
def Architecture.default_install_prefix_path (a : Architecture) : String :=
  a.default_install_prefix_path_

/-- The concrete Platform subclasses of system_info.py. -/
inductive PlatformKind where
  | debian
  | redhat
  | archlinux
  | windowsMingw
  | macosxCommon
  | freebsdCommon
  | androidCommon
deriving DecidableEq, Repr

/-- system_info.Platform: the data every subclass stores via
Platform.__init__ (name, architecture, package types), tagged with the
concrete subclass for method dispatch. -/
structure Platform where
  kind : PlatformKind
  name_ : String
  arch_ : Architecture
  package_types_ : List String
deriving DecidableEq, Repr

/-- Platform.name. -/
def Platform.name (p : Platform) : String := p.name_

/-- Platform.arch. -/
def Platform.arch (p : Platform) : Architecture := p.arch_

/-- Platform.package_types. -/
def Platform.package_types (p : Platform) : List String := p.package_types_

/-- system_info.DebianPlatform constructor: Platform.__init__(self, "linux",
arch, package_types). -/
def DebianPlatform (arch : Architecture) (package_types : List String) : Platform :=
  ⟨PlatformKind.debian, "linux", arch, package_types⟩

/-- system_info.RedHatPlatform constructor. -/
def RedHatPlatform (arch : Architecture) (package_types : List String) : Platform :=
  ⟨PlatformKind.redhat, "linux", arch, package_types⟩

/-- system_info.ArchPlatform constructor. -/
def ArchPlatform (arch : Architecture) (package_types : List String) : Platform :=
  ⟨PlatformKind.archlinux, "linux", arch, package_types⟩

/-- system_info.WindowsMingwPlatform constructor. -/
def WindowsMingwPlatform (arch : Architecture) (package_types : List String) : Platform :=
  ⟨PlatformKind.windowsMingw, "windows", arch, package_types⟩

/-- system_info.MacOSXCommonPlatform constructor. -/
def MacOSXCommonPlatform (arch : Architecture) (package_types : List String) : Platform :=
  ⟨PlatformKind.macosxCommon, "macosx", arch, package_types⟩

/-- system_info.FreeBSDCommonPlatform constructor. -/
def FreeBSDCommonPlatform (arch : Architecture) (package_types : List String) : Platform :=
  ⟨PlatformKind.freebsdCommon, "freebsd", arch, package_types⟩

/-- system_info.AndroidCommonPlatform constructor. -/
def AndroidCommonPlatform (arch : Architecture) (package_types : List String) : Platform :=
  ⟨PlatformKind.androidCommon, "android", arch, package_types⟩

/-- Platform.install_package, dispatched over the concrete subclass:
Debian runs apt-get, RedHat yum, Arch and WindowsMingw pacman, MacOSX port;
the FreeBSD and Android subclasses raise NotImplementedError. -/
def Platform.install_package (p : Platform) (name : String) : M Unit := do
  match p.kind with
  | PlatformKind.debian =>
    let _ ← subprocess_call ["apt-get", "-y", "--no-install-recommends", "install", name]
    M.pure ()
  | PlatformKind.redhat =>
    let _ ← subprocess_call ["yum", "-y", "install", name]
    M.pure ()
  | PlatformKind.archlinux =>
    let _ ← subprocess_call ["pacman", "-S", "--noconfirm", name]
    M.pure ()
  | PlatformKind.windowsMingw =>
    let _ ← subprocess_call ["pacman", "-S", "--noconfirm", name]
    M.pure ()
  | PlatformKind.macosxCommon =>
    let _ ← subprocess_call ["port", "install", name]
    M.pure ()
  | PlatformKind.freebsdCommon =>
    M.throw (PyExc.notImplementedError "You need to define a install_package method!")
  | PlatformKind.androidCommon =>
    M.throw (PyExc.notImplementedError "You need to define a install_package method!")

/-- The platform families of system_info.py. -/
inductive FamilyKind where
  | linux
  | windows
  | macosx
  | freebsd
  | android
deriving DecidableEq, Repr

/-- system_info.SupportedPlatforms: the data stored by __init__ (name,
architectures, package types), tagged with the concrete subclass for the
factory-method dispatch. -/
structure SupportedPlatforms where
  kind : FamilyKind
  name_ : String
  archs_ : List Architecture
  package_types_ : List String
deriving DecidableEq, Repr

/-- SupportedPlatforms.name. -/
def SupportedPlatforms.name (sp : SupportedPlatforms) : String := sp.name_

/-- SupportedPlatforms.archs. -/
def SupportedPlatforms.archs (sp : SupportedPlatforms) : List Architecture := sp.archs_

/-- SupportedPlatforms.package_types. -/
def SupportedPlatforms.package_types (sp : SupportedPlatforms) : List String :=
  sp.package_types_

/-- SupportedPlatforms.architecture_by_arch_name: first architecture whose
name matches, None otherwise (system_info.py lines 57-62). -/
def SupportedPlatforms.architecture_by_arch_name (sp : SupportedPlatforms)
    (arch_name : String) : Option Architecture :=
  sp.archs_.find? (fun a => a.name_ == arch_name)

/-- system_info.linux_get_dist.  The host value of
platform.linux_distribution()[0] is taken as the argument `dist_name`.
An unrecognized distribution executes `raise NotImplemented(...)`; since
NotImplemented is not callable in Python this raises a TypeError, so either
way an exception propagates. -/
def linux_get_dist (dist_name : String) : Except PyExc String :=
  let dist_name_upper := py_upper dist_name
  if dist_name_upper ∈ ["RHEL", "CENTOS LINUX", "FEDORA"] then Except.ok "RHEL"
  else if dist_name_upper ∈ ["DEBIAN", "UBUNTU", "LINUXMINT"] then Except.ok "DEBIAN"
  else if dist_name_upper ∈ ["ARCH"] then Except.ok "ARCH"
  else Except.error (PyExc.typeError "NotImplementedType object is not callable")

/-- SupportedPlatforms.make_platform_by_arch, the family factory method.
The linux family sniffs the running distribution (read from the process
state) and dispatches to the Debian, RedHat or Arch variant, raising on an
unrecognized one; the other families build their single variant. -/
def SupportedPlatforms.make_platform_by_arch (sp : SupportedPlatforms)
    (arch : Architecture) (package_types : List String) : M Platform := do
  match sp.kind with
  | FamilyKind.linux =>
    let s ← M.get
    let distr ← M.liftE (linux_get_dist s.dist)
    if distr = "DEBIAN" then M.pure (DebianPlatform arch package_types)
    else if distr = "RHEL" then M.pure (RedHatPlatform arch package_types)
    else if distr = "ARCH" then M.pure (ArchPlatform arch package_types)
    else M.throw (PyExc.typeError "NotImplementedType object is not callable")
  | FamilyKind.windows => M.pure (WindowsMingwPlatform arch package_types)
  | FamilyKind.macosx => M.pure (MacOSXCommonPlatform arch package_types)
  | FamilyKind.freebsd => M.pure (FreeBSDCommonPlatform arch package_types)
  | FamilyKind.android => M.pure (AndroidCommonPlatform arch package_types)

/-- system_info.LinuxPlatforms(). -/
def LinuxPlatforms : SupportedPlatforms :=
  ⟨FamilyKind.linux, "linux",
   [⟨"x86_64", 64, "/usr/local"⟩,
    ⟨"i386", 32, "/usr/local"⟩,
    ⟨"i686", 32, "/usr/local"⟩,
    ⟨"aarch64", 64, "/usr/local"⟩,
    ⟨"armv7l", 32, "/usr/local"⟩,
    ⟨"armv6l", 32, "/usr/local"⟩],
   ["DEB", "RPM", "TGZ"]⟩

/-- system_info.WindowsPlatforms(). -/
def WindowsPlatforms : SupportedPlatforms :=
  ⟨FamilyKind.windows, "windows",
   [⟨"x86_64", 64, "/mingw64"⟩,
    ⟨"AMD64", 64, "/mingw64"⟩,
    ⟨"i386", 32, "/mingw32"⟩,
    ⟨"i686", 32, "/mingw32"⟩],
   ["NSIS", "ZIP"]⟩

/-- system_info.MacOSXPlatforms(). -/
def MacOSXPlatforms : SupportedPlatforms :=
  ⟨FamilyKind.macosx, "macosx", [⟨"x86_64", 64, "/usr/local"⟩], ["DragNDrop", "ZIP"]⟩

/-- system_info.FreeBSDPlatforms(). -/
def FreeBSDPlatforms : SupportedPlatforms :=
  ⟨FamilyKind.freebsd, "freebsd",
   [⟨"x86_64", 64, "/usr/local"⟩, ⟨"amd64", 64, "/usr/local"⟩], ["TGZ"]⟩

/-- system_info.AndroidPlatforms(), with PLATFORM = "android-16". -/
def AndroidPlatforms : SupportedPlatforms :=
  ⟨FamilyKind.android, "android",
   [⟨"arm", 32, "/opt/android-ndk/platforms/android-16/arch-arm/usr/"⟩,
    ⟨"i386", 32, "/opt/android-ndk/platforms/android-16/arch-x86/usr/"⟩],
   ["APK"]⟩

/-- system_info.SUPPORTED_PLATFORMS. -/
def SUPPORTED_PLATFORMS : List SupportedPlatforms :=
  [LinuxPlatforms, WindowsPlatforms, MacOSXPlatforms, FreeBSDPlatforms, AndroidPlatforms]

/-- system_info.get_supported_platform_by_name: first registry entry with
the given family name, None otherwise. -/
def get_supported_platform_by_name (platform : String) : Option SupportedPlatforms :=
  SUPPORTED_PLATFORMS.find? (fun x => x.name_ == platform)

/-!
Embedding of pyfastogt/build_utils.py.
-/

/-- build_utils.BuildSystem.  `cmd_line_` holds the identity (heap index)
of the mutable Python list object storing the base command line; the list
contents live in `PState.bsHeap`, so that the aliasing of
BuildSystem.cmd_line() is modelled exactly. -/
structure BuildSystem where
  name_ : String
  cmd_line_ : Nat
  cmake_generator_arg_ : String
deriving DecidableEq, Repr

/-- BuildSystem.cmake_generator_arg. -/
def BuildSystem.cmake_generator_arg (bs : BuildSystem) : String := bs.cmake_generator_arg_

/-- BuildSystem.name. -/
def BuildSystem.name (bs : BuildSystem) : String := bs.name_

/-- BuildSystem.cmd_line: returns the list object itself (its identity),
not a copy — callers that append to it mutate the catalog entry. -/
def BuildSystem.cmd_line (bs : BuildSystem) : Nat := bs.cmd_line_

/-- The ninja entry of build_utils.SUPPORTED_BUILD_SYSTEMS; its command
list lives in heap cell 0. -/
def bs_ninja : BuildSystem := ⟨"ninja", 0, "Ninja"⟩

/-- The make entry; its command list lives in heap cell 1. -/
def bs_make : BuildSystem := ⟨"make", 1, "Unix Makefiles"⟩

/-- The gmake entry; its command list lives in heap cell 2. -/
def bs_gmake : BuildSystem := ⟨"gmake", 2, "Unix Makefiles"⟩

/-- build_utils.SUPPORTED_BUILD_SYSTEMS. -/
def SUPPORTED_BUILD_SYSTEMS : List BuildSystem := [bs_ninja, bs_make, bs_gmake]

/-- The heap contents backing SUPPORTED_BUILD_SYSTEMS at module load:
cell 0 is the ninja command line, cell 1 make, cell 2 gmake. -/
def initial_bs_heap : List (List String) := [["ninja"], ["make", "-j2"], ["gmake", "-j2"]]

/-- build_utils.get_supported_build_system_by_name. -/
def get_supported_build_system_by_name (name : String) : Option BuildSystem :=
  SUPPORTED_BUILD_SYSTEMS.find? (fun x => x.name_ == name)

/-- build_utils.build_command_cmake (lines 42-69).  Must be run from the
cmake source folder.  The default build system is
get_supported_build_system_by_name("ninja"), which is bs_ninja. -/
def build_command_cmake (prefix_path : String) (cmake_flags : List String)
    (build_type : String := "RELEASE") (build_system : BuildSystem := bs_ninja) :
    M Unit := do
  let cmake_project_root_abs_path := ".."
  let rootExists ← os_path_exists cmake_project_root_abs_path
  if rootExists then M.pure ()
  else M.throw (PyExc.buildError
    ("invalid cmake_project_root_path: " ++ cmake_project_root_abs_path))
  let abs_prefix_path ← os_path_expanduser prefix_path
  let cmake_line :=
    ["cmake", cmake_project_root_abs_path, "-G", build_system.cmake_generator_arg,
     "-DCMAKE_BUILD_TYPE=" ++ build_type] ++ cmake_flags ++
    ["-DCMAKE_INSTALL_PREFIX=" ++ abs_prefix_path]
  M.tryCatchAll
    (do
      let build_dir_name := "build_cmake_" ++ py_lower build_type
      let dirExists ← os_path_exists build_dir_name
      if dirExists then shutil_rmtree build_dir_name else M.pure ()
      os_mkdir build_dir_name
      os_chdir build_dir_name
      let _ ← subprocess_call cmake_line
      let make_line := build_system.cmd_line
      let v1 ← heap_read make_line
      let _ ← subprocess_call v1
      heap_append make_line "install"
      let v2 ← heap_read make_line
      let _ ← subprocess_call v2
      let w ← shutil_which_ldconfig
      if w then do
        let _ ← subprocess_call ["ldconfig"]
        M.pure ()
      else M.pure ())
    (fun ex => M.throw (PyExc.buildError ex.toStr))

/-- build_utils.build_command_configure (lines 72-88).  Must be run from
the configure source folder.  Ensures the configure script is executable,
runs it with the prefix, then the build system command and the command with
install appended; no exception handling and no inspection of the exit
statuses subprocess.call returns. -/
def build_command_configure (compiler_flags : List String) (prefix_path : String)
    (executable : String := "./configure") (build_system : BuildSystem := bs_make) :
    M Unit := do
  let st ← os_stat executable
  let _ := st
  os_chmod_exec executable
  let abs_prefix_path ← os_path_expanduser prefix_path
  let compile_cmd := [executable, "--prefix=" ++ abs_prefix_path] ++ compiler_flags
  let _ ← subprocess_call compile_cmd
  let make_line := build_system.cmd_line
  let v1 ← heap_read make_line
  let _ ← subprocess_call v1
  heap_append make_line "install"
  let v2 ← heap_read make_line
  let _ ← subprocess_call v2
  let w ← shutil_which_ldconfig
  if w then do
    let _ ← subprocess_call ["ldconfig"]
    M.pure ()
  else M.pure ()

/-- build_utils.generate_fastogt_git_path. -/
def generate_fastogt_git_path (repo_name : String) : String :=
  "git@github.com:fastogt/" ++ repo_name ++ ".git"

/-- The directory name a git clone of a URL produces: the last URL
component without a trailing .git. -/
def clone_dir_name (url : String) : String :=
  let base := (split_slash url).getLastD url
  if py_ends_with base ".git" then py_drop_right base 4 else base

/-- Modelled from the spec: utils.git_clone is the source-fetcher
collaborator of section 6 (cloneRepository(url, branch?, strip) ->
localPath); utils.py is imported by build_utils.py but is not among the
repository sources provided.  Per the spec the core only requires that the
returned path exists and contains the expected build-root layout, so the
model creates (if needed) a directory named after the repository under the
current working directory and returns that name. -/
def git_clone (url : String) (_branch : Option String := none)
    (_remove_dot_git : Bool := true) : M String := fun s =>
  let name := clone_dir_name url
  let r := s.cwd ++ [name]
  (Except.ok name,
   { s with dirs := if r ∈ s.dirs then s.dirs else s.dirs ++ [r] })

/-- Attribute access build_platform.env_variables() (build_utils.py line
117): neither Platform nor any of its subclasses in system_info.py defines
a method of this name, so the attribute lookup raises AttributeError. -/
def Platform.env_variables (_p : Platform) : M (List (String × String)) :=
  M.throw (PyExc.attributeError "env_variables")

/-- Attribute access self.platform_.cmake_specific_flags() (build_utils.py
line 257): no Platform class in system_info.py defines a method of this
name, so the attribute lookup raises AttributeError. -/
def Platform.cmake_specific_flags (_p : Platform) : M (List String) :=
  M.throw (PyExc.attributeError "cmake_specific_flags")

/-- Attribute access self.platform_.configure_specific_flags()
(build_utils.py line 263): no Platform class in system_info.py defines a
method of this name, so the attribute lookup raises AttributeError. -/
def Platform.configure_specific_flags (_p : Platform) : M (List String) :=
  M.throw (PyExc.attributeError "configure_specific_flags")

/-- Attribute access platform_or_none.get_architecture_by_arch_name
(build_utils.py line 105): SupportedPlatforms defines
architecture_by_arch_name (system_info.py line 57) but no class defines a
method named get_architecture_by_arch_name, so the attribute lookup raises
AttributeError. -/
def SupportedPlatforms.get_architecture_by_arch_name (_sp : SupportedPlatforms)
    (_arch_name : String) : M (Option Architecture) :=
  M.throw (PyExc.attributeError "get_architecture_by_arch_name")

/-- The string assigned to os.environ["PKG_CONFIG_PATH"] by
BuildRequest.__init__ (build_utils.py line 116).  Python performs no shell
expansion on it: the dollar reference stays literal text. -/
def pkg_config_path_value (abs_prefix_path : String) : String :=
  "$PKG_CONFIG_PATH:" ++ abs_prefix_path ++ "/lib/pkgconfig/"

/-- build_utils.BuildRequest: the session object constructed by __init__
(platform_, build_dir_path_, prefix_path_). -/
structure BuildRequest where
  platform_ : Platform
  build_dir_path_ : String
  prefix_path_ : String
deriving DecidableEq, Repr

/-- Apply a list of environment entries in order, modelling the loop
`for key, value in env.items(): os.environ[key] = value`. -/
def env_apply : List (String × String) → M Unit
  | [] => M.pure ()
  | (k, v) :: rest => do
    os_environ_set k v
    env_apply rest

/-- build_utils.BuildRequest.__init__ (lines 100-131). -/
def BuildRequest.init (platform arch_name dir_path prefix_path : String) :
    M BuildRequest := do
  let platform_or_none := get_supported_platform_by_name platform
  match platform_or_none with
  | none => M.throw (PyExc.buildError "invalid platform")
  | some family =>
    let arch_or_none ← family.get_architecture_by_arch_name arch_name
    match arch_or_none with
    | none => M.throw (PyExc.buildError "invalid arch")
    | some arch_obj => do
      let prefix_path_chosen :=
        if prefix_path = "" then arch_obj.default_install_prefix_path else prefix_path
      let abs_prefix_path ← os_path_expanduser prefix_path_chosen
      let packages_types := family.package_types
      let build_platform ← family.make_platform_by_arch arch_obj packages_types
      os_environ_set "PKG_CONFIG_PATH" (pkg_config_path_value abs_prefix_path)
      let env ← build_platform.env_variables
      env_apply env
      let build_dir_path ← os_path_abspath dir_path
      let dirExists ← os_path_exists build_dir_path
      if dirExists then shutil_rmtree build_dir_path else M.pure ()
      os_mkdir build_dir_path
      os_chdir build_dir_path
      M.pure { platform_ := build_platform, build_dir_path_ := build_dir_path,
               prefix_path_ := abs_prefix_path }

/-- BuildRequest.platform. -/
def BuildRequest.platform (self : BuildRequest) : Platform := self.platform_

/-- BuildRequest.platform_name. -/
def BuildRequest.platform_name (self : BuildRequest) : String := self.platform_.name

/-- BuildRequest.build_dir_path. -/
def BuildRequest.build_dir_path (self : BuildRequest) : String := self.build_dir_path_

/-- BuildRequest.prefix_path. -/
def BuildRequest.prefix_path (self : BuildRequest) : String := self.prefix_path_

/-- build_utils.BuildRequest._build_via_cmake (lines 254-258).  The Python
code binds cmake_flags_extended to the callers list object and extends it
in place with the platform flags, then hands the very same (now extended)
list to build_command_cmake; the value build_command_cmake receives is
therefore `cmake_flags ++ platform flags`.  Evaluating the platform-flag
attribute raises before anything else happens (see cmake_specific_flags). -/
def BuildRequest._build_via_cmake (self : BuildRequest) (cmake_flags : List String)
    (use_platform_flags : Bool := true) : M Unit := do
  if use_platform_flags then do
    let plat_flags ← self.platform_.cmake_specific_flags
    build_command_cmake self.prefix_path_ (cmake_flags ++ plat_flags)
  else
    build_command_cmake self.prefix_path_ cmake_flags

/-- build_utils.BuildRequest._build_via_configure (lines 260-264). -/
def BuildRequest._build_via_configure (self : BuildRequest)
    (compiler_flags : List String) (executable : String := "./configure")
    (use_platform_flags : Bool := true) : M Unit := do
  if use_platform_flags then do
    let plat_flags ← self.platform_.configure_specific_flags
    build_command_configure (compiler_flags ++ plat_flags) self.prefix_path_ executable
  else
    build_command_configure compiler_flags self.prefix_path_ executable

/-- build_utils.BuildRequest._clone_and_build_via_cmake (lines 196-201):
remember the working directory, clone, enter the clone, build via cmake,
chdir back.  The final chdir is plain sequential code, not a finally
block: it only runs when the build raised nothing. -/
def BuildRequest._clone_and_build_via_cmake (self : BuildRequest) (url : String)
    (cmake_flags : List String) (branch : Option String := none)
    (remove_dot_git : Bool := true) : M Unit := do
  let pwd ← os_getcwd
  let cloned_dir ← git_clone url branch remove_dot_git
  os_chdir cloned_dir
  self._build_via_cmake cmake_flags
  os_chdir pwd

/-- build_utils.BuildRequest.build_snappy (lines 145-147). -/
def BuildRequest.build_snappy (self : BuildRequest) : M Unit :=
  self._clone_and_build_via_cmake (generate_fastogt_git_path "snappy")
    ["-DBUILD_SHARED_LIBS=OFF", "-DSNAPPY_BUILD_TESTS=OFF"]

/-- Spec-side predicate: does `hay` contain `needle` as a substring?  Used
to state that the new PKG_CONFIG_PATH value does not contain the previous
search path. -/
def infix_of_chars (needle : List Char) : List Char → Bool
  | [] => needle.isEmpty
  | c :: rest => List.isPrefixOf needle (c :: rest) || infix_of_chars needle rest

/-- Substring test built on infix_of_chars. -/
def strContains (hay needle : String) : Bool :=
  infix_of_chars needle.data hay.data

/-!
Shared concrete states for the claim theorems.
-/

/-- A well-formed process state sitting inside the source directory /src,
with the pristine build-system catalog heap, an empty call log and no
pending non-zero exit statuses. -/
def base_state : PState :=
  { cwd := ["src"], dirs := [[], ["src"]], files := [], failing := [], env := [],
    bsHeap := initial_bs_heap, calls := [], pendingExits := [], ldconfigAvailable := false,
    dist := "", home := "/root" }

/-- base_state with a configure script (not yet executable) in the source
directory. -/
def configure_state : PState :=
  { base_state with files := [(["src", "configure"], false)] }

/-- base_state with a stale build_cmake_release directory whose removal
raises OSError (for example a permission failure). -/
def rmtree_failing_state : PState :=
  { base_state with dirs := [[], ["src"], ["src", "build_cmake_release"]],
                    failing := [["src", "build_cmake_release"]] }

/-- A BuildRequest session object as __init__ would have produced it for
linux/x86_64 on a Debian host, used as the receiver of recipe calls. -/
def debian_session : BuildRequest :=
  { platform_ := DebianPlatform ⟨"x86_64", 64, "/usr/local"⟩ ["DEB", "RPM", "TGZ"],
    build_dir_path_ := "/src", prefix_path_ := "/usr/local" }

/-!
Claim theorems.
-/

/-- Claim C1, counterexample: invoking the clone-and-build-via-cmake recipe
build_snappy from /src raises (AttributeError) and returns with the working
directory changed to the cloned source directory /src/snappy, so the working
directory after the call differs from the working directory before it — the
claimed invariant fails on the raising exit path. -/
theorem C1_recipe_cwd_counterexample :
    M.run (debian_session.build_snappy) base_state =
      (Except.error (PyExc.attributeError "cmake_specific_flags"),
       { base_state with cwd := ["src", "snappy"],
                         dirs := [[], ["src"], ["src", "snappy"]] }) ∧
    ({ base_state with cwd := ["src", "snappy"],
                       dirs := [[], ["src"], ["src", "snappy"]] } : PState).cwd ≠
      base_state.cwd :=
  ⟨rfl, by decide⟩

/-- Claim C1, amended: the recipe restores the working directory only on a
successful build — the restoring chdir is plain sequential code after the
build step, not a finally block.  In the present code every
_clone_and_build_via_cmake call raises AttributeError (the platform object
has no cmake_specific_flags method) and always returns with the working
directory left in the cloned source directory. -/
theorem C1_recipe_cwd_amended (self : BuildRequest) (url : String)
    (flags : List String) (s : PState)
    (hres : ∀ cw, resolvePath cw (clone_dir_name url) = cw ++ [clone_dir_name url]) :
    M.run (self._clone_and_build_via_cmake url flags) s =
    (Except.error (PyExc.attributeError "cmake_specific_flags"),
     { s with cwd := s.cwd ++ [clone_dir_name url],
              dirs := if s.cwd ++ [clone_dir_name url] ∈ s.dirs then s.dirs
                      else s.dirs ++ [s.cwd ++ [clone_dir_name url]] }) := by
  by_cases hmem : s.cwd ++ [clone_dir_name url] ∈ s.dirs
  · simp only [BuildRequest._clone_and_build_via_cmake, M.run, M.bind_def, M.bind,
      os_getcwd, git_clone, os_chdir, BuildRequest._build_via_cmake,
      Platform.cmake_specific_flags, M.throw, M.pure_def, M.pure, hres, hmem,
      if_pos, if_true, ite_true]
  · simp only [BuildRequest._clone_and_build_via_cmake, M.run, M.bind_def, M.bind,
      os_getcwd, git_clone, os_chdir, BuildRequest._build_via_cmake,
      Platform.cmake_specific_flags, M.throw, M.pure_def, M.pure, hres, hmem,
      if_neg, ite_false]
    simp [M.bind, M.throw, hmem]

/-- Witness for C1_recipe_cwd_amended at the snappy recipe inputs. -/
theorem C1_recipe_cwd_amended_witness :
    M.run (debian_session._clone_and_build_via_cmake
      (generate_fastogt_git_path "snappy")
      ["-DBUILD_SHARED_LIBS=OFF", "-DSNAPPY_BUILD_TESTS=OFF"]) base_state =
    (Except.error (PyExc.attributeError "cmake_specific_flags"),
     { base_state with
        cwd := base_state.cwd ++ [clone_dir_name (generate_fastogt_git_path "snappy")],
        dirs := if base_state.cwd ++ [clone_dir_name (generate_fastogt_git_path "snappy")]
                   ∈ base_state.dirs then base_state.dirs
                else base_state.dirs ++
                  [base_state.cwd ++ [clone_dir_name (generate_fastogt_git_path "snappy")]] }) :=
  C1_recipe_cwd_amended debian_session (generate_fastogt_git_path "snappy")
    ["-DBUILD_SHARED_LIBS=OFF", "-DSNAPPY_BUILD_TESTS=OFF"] base_state (fun _ => rfl)

/-- Claim C2, counterexample: with the native CMake configure step exiting
with status 1, the CMake driver raises nothing — it returns successfully and
even proceeds to run the build and install commands, because the return
value of subprocess.call is discarded. -/
theorem C2_nonzero_exit_counterexample :
    M.run (build_command_cmake "/p" []) { base_state with pendingExits := [1] } =
    (Except.ok (),
     { base_state with
        cwd := ["src", "build_cmake_release"],
        dirs := [[], ["src"], ["src", "build_cmake_release"]],
        bsHeap := [["ninja", "install"], ["make", "-j2"], ["gmake", "-j2"]],
        calls := [["cmake", "..", "-G", "Ninja", "-DCMAKE_BUILD_TYPE=RELEASE",
                   "-DCMAKE_INSTALL_PREFIX=/p"], ["ninja"], ["ninja", "install"]],
        pendingExits := [] }) := rfl

/-- Claim C2, amended: in the CMake driver an exception raised during
directory manipulation is caught and re-raised as a BuildError carrying the
description of the failure, but a native tool process exiting non-zero is
not detected at all — the exit status subprocess.call returns is discarded,
so a failing configure step does not raise BuildError and the driver keeps
going. -/
theorem C2_error_wrapping_amended :
    (∀ e : Int,
      M.run (build_command_cmake "/p" []) { base_state with pendingExits := [e] } =
      (Except.ok (),
       { base_state with
          cwd := ["src", "build_cmake_release"],
          dirs := [[], ["src"], ["src", "build_cmake_release"]],
          bsHeap := [["ninja", "install"], ["make", "-j2"], ["gmake", "-j2"]],
          calls := [["cmake", "..", "-G", "Ninja", "-DCMAKE_BUILD_TYPE=RELEASE",
                     "-DCMAKE_INSTALL_PREFIX=/p"], ["ninja"], ["ninja", "install"]],
          pendingExits := [] })) ∧
    M.run (build_command_cmake "/p" []) rmtree_failing_state =
      (Except.error (PyExc.buildError "rmtree failed: build_cmake_release"),
       rmtree_failing_state) :=
  ⟨fun _ => rfl, rfl⟩

/-- Claim C3, code bug: constructing a BuildRequest with a valid platform
never reaches the PKG_CONFIG_PATH assignment — it raises AttributeError at
the architecture lookup first, leaving the environment untouched; and the
assignment itself (build_utils.py line 116), evaluated on its own, stores
the literal text produced by pkg_config_path_value, which discards the
previous search path instead of containing it (Python performs no expansion
of the dollar reference). -/
theorem C3_pkg_config_path_code_bug (dir_path prefix_path : String) (s : PState) :
    M.run (BuildRequest.init "linux" "x86_64" dir_path prefix_path) s =
      (Except.error (PyExc.attributeError "get_architecture_by_arch_name"), s) ∧
    env_set [("PKG_CONFIG_PATH", "/opt/old/lib/pkgconfig")] "PKG_CONFIG_PATH"
        (pkg_config_path_value "/usr/local") =
      [("PKG_CONFIG_PATH", "$PKG_CONFIG_PATH:/usr/local/lib/pkgconfig/")] ∧
    strContains "$PKG_CONFIG_PATH:/usr/local/lib/pkgconfig/" "/opt/old/lib/pkgconfig"
      = false :=
  ⟨rfl, rfl, by decide⟩

/-- Claim C4, code bug: for every platform family in the registry and every
architecture name, BuildRequest construction raises AttributeError instead
of completing — build_utils.py line 105 calls get_architecture_by_arch_name
while system_info.py defines architecture_by_arch_name, so the lookup fails
before the architecture is even validated.  The process state is returned
unchanged: no directory is recreated, no environment entry is written. -/
theorem C4_construction_code_bug (arch_name dir_path prefix_path : String) (s : PState) :
    M.run (BuildRequest.init "linux" arch_name dir_path prefix_path) s =
      (Except.error (PyExc.attributeError "get_architecture_by_arch_name"), s) ∧
    M.run (BuildRequest.init "windows" arch_name dir_path prefix_path) s =
      (Except.error (PyExc.attributeError "get_architecture_by_arch_name"), s) ∧
    M.run (BuildRequest.init "macosx" arch_name dir_path prefix_path) s =
      (Except.error (PyExc.attributeError "get_architecture_by_arch_name"), s) ∧
    M.run (BuildRequest.init "freebsd" arch_name dir_path prefix_path) s =
      (Except.error (PyExc.attributeError "get_architecture_by_arch_name"), s) ∧
    M.run (BuildRequest.init "android" arch_name dir_path prefix_path) s =
      (Except.error (PyExc.attributeError "get_architecture_by_arch_name"), s) :=
  ⟨rfl, rfl, rfl, rfl, rfl⟩

/-- Claim C5, code bug: an unknown platform name does raise
BuildError("invalid platform") with the state (and hence the filesystem)
untouched, but a known platform with an unknown architecture name raises
AttributeError, not the BuildError("invalid arch") the dead branch at
build_utils.py lines 106-107 was meant to produce — the lookup call on
line 105 uses a method name system_info.py does not define.  Neither path
mutates the filesystem. -/
theorem C5_invalid_names_code_bug (arch_name dir_path prefix_path : String) (s : PState) :
    M.run (BuildRequest.init "bogus" arch_name dir_path prefix_path) s =
      (Except.error (PyExc.buildError "invalid platform"), s) ∧
    M.run (BuildRequest.init "linux" "bogus" dir_path prefix_path) s =
      (Except.error (PyExc.attributeError "get_architecture_by_arch_name"), s) :=
  ⟨rfl, rfl⟩

/-- Claim C6, counterexample: driving a cmake build through the session
(_build_via_cmake, which the claim says passes constructor flags, then
platform flags, then caller flags to cmake) invokes no cmake at all on this
code — evaluating the platform-flag attribute raises AttributeError first,
the state is returned unchanged and the call log stays empty, so no flag
sequence whatsoever reaches the native tool. -/
theorem C6_flag_order_counterexample :
    M.run (debian_session._build_via_cmake ["-DFOO=ON"]) base_state =
      (Except.error (PyExc.attributeError "cmake_specific_flags"), base_state) ∧
    base_state.calls = [] :=
  ⟨rfl, rfl⟩

/-- Claim C6, amended: build_command_cmake invokes cmake with exactly the
constructor-required flags (project root, generator, build type), then the
flag list it is given, then -DCMAKE_INSTALL_PREFIX=(expanded path), in that
order with no deduplication.  _build_via_cmake composes the flag list of
the caller with the platform flags appended after it (caller-then-platform,
not platform-then-caller as claimed), and in the present code it raises
AttributeError before ever invoking the driver, because the platform object
defines no cmake_specific_flags method. -/
theorem C6_flag_order_amended :
    (∀ (flags : List String) (pre_path : String),
      M.run (build_command_cmake pre_path flags) base_state =
      (Except.ok (),
       { base_state with
          cwd := ["src", "build_cmake_release"],
          dirs := [[], ["src"], ["src", "build_cmake_release"]],
          bsHeap := [["ninja", "install"], ["make", "-j2"], ["gmake", "-j2"]],
          calls := [["cmake", "..", "-G", "Ninja", "-DCMAKE_BUILD_TYPE=RELEASE"] ++ flags ++
                    ["-DCMAKE_INSTALL_PREFIX=" ++ expanduser "/root" pre_path],
                    ["ninja"], ["ninja", "install"]] })) ∧
    (∀ (self : BuildRequest) (flags : List String) (s : PState),
      M.run (self._build_via_cmake flags) s =
        (Except.error (PyExc.attributeError "cmake_specific_flags"), s)) :=
  ⟨fun _ _ => rfl, fun _ _ _ => rfl⟩

/-- Claim C7, counterexample: the configure driver applies no patches.  On
a run from a source directory containing a configure script, the very first
subprocess invocation is the configure executable itself, followed only by
the build and install commands; no invocation mentions the patch utility
and the driver does not even take a patch list. -/
theorem C7_patches_counterexample :
    M.run (build_command_configure [] "/usr/local") configure_state =
    (Except.ok (),
     { configure_state with
        files := [(["src", "configure"], true)],
        bsHeap := [["ninja"], ["make", "-j2", "install"], ["gmake", "-j2"]],
        calls := [["./configure", "--prefix=/usr/local"],
                  ["make", "-j2"], ["make", "-j2", "install"]] }) ∧
    ([["./configure", "--prefix=/usr/local"],
      ["make", "-j2"], ["make", "-j2", "install"]].all
        (fun c => !(c.contains "patch"))) = true :=
  ⟨rfl, by decide⟩

/-- Claim C7, amended: the configure driver makes the configure script
executable and then immediately invokes the configure executable with the
expanded prefix and the given flags, then the build-system command, then
the same command with install appended; there is no patch-application step
of any kind before configure. -/
theorem C7_patches_amended (flags : List String) (pre_path : String) :
    M.run (build_command_configure flags pre_path) configure_state =
    (Except.ok (),
     { configure_state with
        files := [(["src", "configure"], true)],
        bsHeap := [["ninja"], ["make", "-j2", "install"], ["gmake", "-j2"]],
        calls := [["./configure", "--prefix=" ++ expanduser "/root" pre_path] ++ flags,
                  ["make", "-j2"], ["make", "-j2", "install"]] }) :=
  rfl

/-- Claim C8, confirmed: the build-directory step of the CMake driver is
idempotent in the build type.  For any build type (whose lowercased
directory name resolves as a single path component), a first run from the
source directory creates the deterministically named subdirectory
build_cmake_(lowercased build type), and a second run from the same source
directory succeeds as well: the stale directory left by the first run is
removed and recreated rather than causing a failure. -/
theorem C8_build_dir_idempotence (build_type pre_path : String) (flags : List String)
    (hres : ∀ cw, resolvePath cw ("build_cmake_" ++ py_lower build_type) =
      cw ++ ["build_cmake_" ++ py_lower build_type]) :
    M.run (build_command_cmake pre_path flags build_type) base_state =
    (Except.ok (),
     { base_state with
        cwd := ["src", "build_cmake_" ++ py_lower build_type],
        dirs := [[], ["src"], ["src", "build_cmake_" ++ py_lower build_type]],
        bsHeap := [["ninja", "install"], ["make", "-j2"], ["gmake", "-j2"]],
        calls := [["cmake", "..", "-G", "Ninja", "-DCMAKE_BUILD_TYPE=" ++ build_type] ++
                  flags ++ ["-DCMAKE_INSTALL_PREFIX=" ++ expanduser "/root" pre_path],
                  ["ninja"], ["ninja", "install"]] }) ∧
    M.run (build_command_cmake pre_path flags build_type)
      { base_state with
         cwd := ["src"],
         dirs := [[], ["src"], ["src", "build_cmake_" ++ py_lower build_type]],
         bsHeap := [["ninja", "install"], ["make", "-j2"], ["gmake", "-j2"]],
         calls := [["cmake", "..", "-G", "Ninja", "-DCMAKE_BUILD_TYPE=" ++ build_type] ++
                   flags ++ ["-DCMAKE_INSTALL_PREFIX=" ++ expanduser "/root" pre_path],
                   ["ninja"], ["ninja", "install"]] } =
    (Except.ok (),
     { base_state with
        cwd := ["src", "build_cmake_" ++ py_lower build_type],
        dirs := [[], ["src"], ["src", "build_cmake_" ++ py_lower build_type]],
        bsHeap := [["ninja", "install", "install"], ["make", "-j2"], ["gmake", "-j2"]],
        calls := [["cmake", "..", "-G", "Ninja", "-DCMAKE_BUILD_TYPE=" ++ build_type] ++
                  flags ++ ["-DCMAKE_INSTALL_PREFIX=" ++ expanduser "/root" pre_path],
                  ["ninja"], ["ninja", "install"],
                  ["cmake", "..", "-G", "Ninja", "-DCMAKE_BUILD_TYPE=" ++ build_type] ++
                  flags ++ ["-DCMAKE_INSTALL_PREFIX=" ++ expanduser "/root" pre_path],
                  ["ninja", "install"], ["ninja", "install", "install"]] }) := by
  have hdot : ∀ (cw : List String), resolvePath cw ".." = cw.dropLast := fun _ => rfl
  constructor
  · simp [build_command_cmake, M.run, M.bind, M.pure, M.tryCatchAll, M.throw,
      os_path_exists, os_path_expanduser, os_mkdir, os_chdir, shutil_rmtree,
      subprocess_call, heap_read, heap_append, shutil_which_ldconfig,
      BuildSystem.cmake_generator_arg, BuildSystem.cmd_line, bs_ninja, hdot, hres,
      base_state, initial_bs_heap, List.isPrefixOf]
  · simp [build_command_cmake, M.run, M.bind, M.pure, M.tryCatchAll, M.throw,
      os_path_exists, os_path_expanduser, os_mkdir, os_chdir, shutil_rmtree,
      subprocess_call, heap_read, heap_append, shutil_which_ldconfig,
      BuildSystem.cmake_generator_arg, BuildSystem.cmd_line, bs_ninja, hdot, hres,
      base_state, initial_bs_heap, List.isPrefixOf]

/-- Witness for C8_build_dir_idempotence at build type RELEASE. -/
theorem C8_build_dir_idempotence_witness :
    M.run (build_command_cmake "/p" [] "RELEASE") base_state =
    (Except.ok (),
     { base_state with
        cwd := ["src", "build_cmake_" ++ py_lower "RELEASE"],
        dirs := [[], ["src"], ["src", "build_cmake_" ++ py_lower "RELEASE"]],
        bsHeap := [["ninja", "install"], ["make", "-j2"], ["gmake", "-j2"]],
        calls := [["cmake", "..", "-G", "Ninja", "-DCMAKE_BUILD_TYPE=" ++ "RELEASE"] ++
                  [] ++ ["-DCMAKE_INSTALL_PREFIX=" ++ expanduser "/root" "/p"],
                  ["ninja"], ["ninja", "install"]] }) ∧
    M.run (build_command_cmake "/p" [] "RELEASE")
      { base_state with
         cwd := ["src"],
         dirs := [[], ["src"], ["src", "build_cmake_" ++ py_lower "RELEASE"]],
         bsHeap := [["ninja", "install"], ["make", "-j2"], ["gmake", "-j2"]],
         calls := [["cmake", "..", "-G", "Ninja", "-DCMAKE_BUILD_TYPE=" ++ "RELEASE"] ++
                   [] ++ ["-DCMAKE_INSTALL_PREFIX=" ++ expanduser "/root" "/p"],
                   ["ninja"], ["ninja", "install"]] } =
    (Except.ok (),
     { base_state with
        cwd := ["src", "build_cmake_" ++ py_lower "RELEASE"],
        dirs := [[], ["src"], ["src", "build_cmake_" ++ py_lower "RELEASE"]],
        bsHeap := [["ninja", "install", "install"], ["make", "-j2"], ["gmake", "-j2"]],
        calls := [["cmake", "..", "-G", "Ninja", "-DCMAKE_BUILD_TYPE=" ++ "RELEASE"] ++
                  [] ++ ["-DCMAKE_INSTALL_PREFIX=" ++ expanduser "/root" "/p"],
                  ["ninja"], ["ninja", "install"],
                  ["cmake", "..", "-G", "Ninja", "-DCMAKE_BUILD_TYPE=" ++ "RELEASE"] ++
                  [] ++ ["-DCMAKE_INSTALL_PREFIX=" ++ expanduser "/root" "/p"],
                  ["ninja", "install"], ["ninja", "install", "install"]] }) :=
  C8_build_dir_idempotence "RELEASE" "/p" [] (fun _ => rfl)

/-- Claim C9, confirmed: resolving the linux family in the registry, looking
up the x86_64 architecture, and instantiating the platform on a host whose
distribution sniff reports the Debian family yields a resolved platform
named linux whose install_package("foo") invokes exactly
apt-get -y --no-install-recommends install foo. -/
theorem C9_debian_scenario (d : String)
    (hdist : linux_get_dist d = Except.ok "DEBIAN") :
    get_supported_platform_by_name "linux" = some LinuxPlatforms ∧
    LinuxPlatforms.architecture_by_arch_name "x86_64" =
      some ⟨"x86_64", 64, "/usr/local"⟩ ∧
    M.run (LinuxPlatforms.make_platform_by_arch ⟨"x86_64", 64, "/usr/local"⟩
        LinuxPlatforms.package_types) { base_state with dist := d } =
      (Except.ok (DebianPlatform ⟨"x86_64", 64, "/usr/local"⟩ ["DEB", "RPM", "TGZ"]),
       { base_state with dist := d }) ∧
    (DebianPlatform ⟨"x86_64", 64, "/usr/local"⟩ ["DEB", "RPM", "TGZ"]).name = "linux" ∧
    M.run ((DebianPlatform ⟨"x86_64", 64, "/usr/local"⟩
        ["DEB", "RPM", "TGZ"]).install_package "foo") { base_state with dist := d } =
      (Except.ok (),
       { base_state with
          dist := d,
          calls := [["apt-get", "-y", "--no-install-recommends", "install", "foo"]] }) := by
  refine ⟨rfl, rfl, ?_, rfl, rfl⟩
  simp [SupportedPlatforms.make_platform_by_arch, SupportedPlatforms.package_types,
    LinuxPlatforms, M.run, M.bind, M.pure, M.get, M.liftE, hdist, base_state]

/-- Witness for C9_debian_scenario on a host reporting Ubuntu. -/
theorem C9_debian_scenario_witness :
    get_supported_platform_by_name "linux" = some LinuxPlatforms ∧
    LinuxPlatforms.architecture_by_arch_name "x86_64" =
      some ⟨"x86_64", 64, "/usr/local"⟩ ∧
    M.run (LinuxPlatforms.make_platform_by_arch ⟨"x86_64", 64, "/usr/local"⟩
        LinuxPlatforms.package_types) { base_state with dist := "Ubuntu" } =
      (Except.ok (DebianPlatform ⟨"x86_64", 64, "/usr/local"⟩ ["DEB", "RPM", "TGZ"]),
       { base_state with dist := "Ubuntu" }) ∧
    (DebianPlatform ⟨"x86_64", 64, "/usr/local"⟩ ["DEB", "RPM", "TGZ"]).name = "linux" ∧
    M.run ((DebianPlatform ⟨"x86_64", 64, "/usr/local"⟩
        ["DEB", "RPM", "TGZ"]).install_package "foo") { base_state with dist := "Ubuntu" } =
      (Except.ok (),
       { base_state with
          dist := "Ubuntu",
          calls := [["apt-get", "-y", "--no-install-recommends", "install", "foo"]] }) :=
  C9_debian_scenario "Ubuntu" rfl

/-- Claim C10, counterexample: before a driver run the ninja catalog entry
reports the command line ninja; after one build_command_cmake run the very
same entry reports ninja install — the driver appended the install target
to the list object the catalog entry returns, so the shared catalog is not
left unchanged. -/
theorem C10_catalog_mutation_counterexample :
    (M.run (heap_read bs_ninja.cmd_line) base_state).1 = Except.ok ["ninja"] ∧
    (M.run (heap_read bs_ninja.cmd_line)
      ((M.run (build_command_cmake "/p" []) base_state).2)).1 =
      Except.ok ["ninja", "install"] ∧
    (["ninja", "install"] : List String) ≠ ["ninja"] :=
  ⟨rfl, rfl, by decide⟩

/-- The state after one cmake driver run from base_state. -/
def after_first_cmake_run : PState := (M.run (build_command_cmake "/p" []) base_state).2

/-- The same state with the working directory put back at the source
directory, from which a second driver run starts. -/
def second_cmake_run_start : PState := { after_first_cmake_run with cwd := ["src"] }

/-- Claim C10, amended: each driver appends the install target to the very
list object its build-system catalog entry returns.  After one cmake run
the ninja entry reads ninja install; a second run therefore issues its
build step with a command line already ending in install and leaves the
entry at ninja install install.  The configure driver mutates the make
entry the same way. -/
theorem C10_catalog_mutation_amended :
    (M.run (heap_read bs_ninja.cmd_line)
      ((M.run (build_command_cmake "/p" []) second_cmake_run_start).2)).1 =
      Except.ok ["ninja", "install", "install"] ∧
    ((M.run (build_command_cmake "/p" []) second_cmake_run_start).2).calls =
      [["cmake", "..", "-G", "Ninja", "-DCMAKE_BUILD_TYPE=RELEASE",
        "-DCMAKE_INSTALL_PREFIX=/p"], ["ninja"], ["ninja", "install"],
       ["cmake", "..", "-G", "Ninja", "-DCMAKE_BUILD_TYPE=RELEASE",
        "-DCMAKE_INSTALL_PREFIX=/p"], ["ninja", "install"],
       ["ninja", "install", "install"]] ∧
    (M.run (heap_read bs_make.cmd_line)
      ((M.run (build_command_configure [] "/p") configure_state).2)).1 =
      Except.ok ["make", "-j2", "install"] :=
  ⟨rfl, rfl, rfl⟩
